import Mathlib

/-!
# Verification of the secure configuration/secret-storage subsystem
# of `vscode-enhance-prompt`

Shallow embedding of the storage module (`storeSecret`, `getSecret`,
`updateSecretsBatch`, global-state operations, `getApiConfiguration`,
`updateApiConfiguration`, `resetAllState`, `validateApiKey`, `maskApiKey`),
the `StorageService` facade (`setApiKey`) and the `StorageEventManager`
publish/subscribe registry.

Modelling conventions:
* A JavaScript `Map<string, V>` (and the platform vault / `globalState`
  key-value store) is modelled as an association list `SMap V` with
  first-match lookup; `set` replaces any previous binding, `erase`
  removes the binding.  `undefined` is `Option.none`.
* The process-wide `TEMP_PROFILE` flag (`isTemporaryProfile`) is passed
  as an explicit `Bool` parameter `temp`.
* Strings that are only stored and compared are Lean `String`s;
  `maskApiKey`, which indexes into the string, is modelled over the
  string's character list.
* The single-threaded `async/await` code has no observable interleaving
  inside one operation, so each operation is a pure state transformer;
  `Promise.all` over independent keys is modelled as a sequential fold.
* Fallible JavaScript (functions that could `throw`) are modelled with
  `Except`; `validateApiKey` catches every transport error internally,
  which the embedding reflects by always returning `.ok`.
-/

/-- Association-list model of a JS `Map<string, α>` / key-value store. -/
abbrev SMap (α : Type) := List (String × α)

/-- `Map.get`: value of the first binding of `k`, `none` when absent. -/
def SMap.get {α : Type} : SMap α → String → Option α
  | [], _ => none
  | (k', v) :: rest, k => if k' = k then some v else SMap.get rest k

/-- `Map.delete`: remove every binding of `k`. -/
def SMap.erase {α : Type} : SMap α → String → SMap α
  | [], _ => []
  | (k', v) :: rest, k =>
      if k' = k then SMap.erase rest k else (k', v) :: SMap.erase rest k

/-- `Map.set`: bind `k` to `v`, replacing any previous binding. -/
def SMap.set {α : Type} (m : SMap α) (k : String) (v : α) : SMap α :=
  (k, v) :: SMap.erase m k

/-- `Map.keys()`: the keys currently present. -/
def SMap.keys {α : Type} (m : SMap α) : List String := m.map (·.1)

theorem SMap.get_erase {α : Type} (m : SMap α) (k k' : String) :
    SMap.get (SMap.erase m k) k' = if k' = k then none else SMap.get m k' := by
  induction m with
  | nil => simp [SMap.erase, SMap.get]
  | cons p rest ih =>
    obtain ⟨a, v⟩ := p
    by_cases hak : a = k <;> by_cases hkk : k' = k <;> by_cases hak' : a = k' <;>
      simp_all [SMap.erase, SMap.get]

theorem SMap.get_set_self {α : Type} (m : SMap α) (k : String) (v : α) :
    SMap.get (SMap.set m k v) k = some v := by
  simp [SMap.set, SMap.get]

theorem SMap.get_set_ne {α : Type} (m : SMap α) (k k' : String) (v : α)
    (h : k' ≠ k) : SMap.get (SMap.set m k v) k' = SMap.get m k' := by
  simp [SMap.set, SMap.get, Ne.symm h, SMap.get_erase, h]

theorem SMap.get_none_of_not_mem_keys {α : Type} (m : SMap α) (k : String)
    (h : k ∉ SMap.keys m) : SMap.get m k = none := by
  induction m with
  | nil => rfl
  | cons p rest ih =>
    obtain ⟨a, v⟩ := p
    have hcons : SMap.keys ((a, v) :: rest) = a :: SMap.keys rest := rfl
    rw [hcons, List.mem_cons, not_or] at h
    simp [SMap.get, Ne.symm h.1, ih h.2]

theorem SMap.get_foldl_erase {α : Type} (ks : List String) (m : SMap α)
    (k : String) :
    SMap.get (ks.foldl (fun acc kk => SMap.erase acc kk) m) k =
      if k ∈ ks then none else SMap.get m k := by
  induction ks generalizing m with
  | nil => simp
  | cons a ks ih =>
    by_cases hmem : k ∈ ks
    · simp [List.foldl, ih, hmem]
    · by_cases hka : k = a
      · subst hka
        simp [List.foldl, ih, hmem, SMap.get_erase]
      · simp [List.foldl, ih, hmem, SMap.get_erase, hka]

/-! ## Storage-state model (src `state.ts`) -/

/-- A value held in VS Code `globalState`: the preferences stored by this
extension are strings (`model`, `extensionVersion`) and numbers
(`temperature`, `lastUsedTimestamp`); numbers are modelled as rationals. -/
inductive GVal where
  | str (s : String)
  | num (q : ℚ)
deriving DecidableEq, Repr

/-- The two secret backends: `vault` is the platform credential vault
behind `context.secrets`, `mem` is the module-level `inMemorySecrets` map
used when `isTemporaryProfile` (the `temp` parameter below) is true. -/
structure SecretsState where
  vault : SMap String
  mem : SMap String
deriving DecidableEq, Repr

/-- Default configuration from `state-keys.ts` (`DEFAULT_CONFIG`). -/
structure DefaultConfig where
  model : String
  temperature : ℚ

def DEFAULT_CONFIG : DefaultConfig := { model := "deepseek-chat", temperature := 1/5 }

/-- The enumerated model allow-list (`SUPPORTED_MODELS`). -/
def SUPPORTED_MODELS : List String :=
  ["deepseek-chat", "deepseek-reasoner", "deepseek-coder"]

/-- One `if (value) { set } else { delete }` step of `storeSecret`:
the optional string parameter is tested for JS truthiness, so both
`undefined` and the empty string take the delete branch. -/
def applySecretUpdate (m : SMap String) (k : String) (value : Option String) :
    SMap String :=
  match value with
  | some v => if v = "" then SMap.erase m k else SMap.set m k v
  | none => SMap.erase m k

/-- `storeSecret(context, key, value?)`: in temporary-profile mode it
writes only the in-memory map and returns; otherwise it writes only the
vault (`context.secrets.store` / `context.secrets.delete`). -/
def storeSecret (temp : Bool) (st : SecretsState) (key : String)
    (value : Option String) : SecretsState :=
  if temp then { st with mem := applySecretUpdate st.mem key value }
  else { st with vault := applySecretUpdate st.vault key value }

/-- `getSecret(context, key)`: reads the in-memory map in temporary mode,
the vault otherwise. -/
def getSecret (temp : Bool) (st : SecretsState) (key : String) : Option String :=
  if temp then SMap.get st.mem key else SMap.get st.vault key

/-- `updateSecretsBatch(context, updates)`: in temporary mode a `forEach`
over the entries against the in-memory map; otherwise `Promise.all` of
`storeSecret` per entry, modelled sequentially (entries have distinct
keys, so the interleaving is unobservable). -/
def updateSecretsBatch (temp : Bool) (st : SecretsState)
    (updates : List (String × Option String)) : SecretsState :=
  if temp then
    { st with mem := updates.foldl (fun m p => applySecretUpdate m p.1 p.2) st.mem }
  else updates.foldl (fun s p => storeSecret false s p.1 p.2) st

/-- `storeGlobalState(context, key, value)`: `globalState.update` stores
the value, or removes the key when the value is `undefined`. -/
def storeGlobalState (g : SMap GVal) (key : String) (value : Option GVal) :
    SMap GVal :=
  match value with
  | some v => SMap.set g key v
  | none => SMap.erase g key

/-- `getGlobalState(context, key, defaultValue)`. -/
def getGlobalState (g : SMap GVal) (key : String) (dflt : GVal) : GVal :=
  (SMap.get g key).getD dflt

/-- `updateGlobalStateBatch(context, updates)`: `Promise.all` of
`storeGlobalState` per entry, modelled sequentially. -/
def updateGlobalStateBatch (g : SMap GVal)
    (updates : List (String × Option GVal)) : SMap GVal :=
  updates.foldl (fun acc p => storeGlobalState acc p.1 p.2) g

/-- The `ApiConfiguration` interface as used as *input* of
`updateApiConfiguration` (every field optional). -/
structure ApiConfiguration where
  deepSeekApiKey : Option String := none
  model : Option String := none
  temperature : Option ℚ := none

/-- The configuration view assembled by `getApiConfiguration`: the secret
(possibly absent) plus the two preferences after default-filling.  The
source returns these in one `ApiConfiguration` object; the view type
records that `model`/`temperature` are the raw stored values. -/
structure ApiConfigurationView where
  deepSeekApiKey : Option String
  model : GVal
  temperature : GVal
deriving DecidableEq, Repr

/-- `getApiConfiguration(context)`: reads the secret and the two
preferences, filling absent preferences from `DEFAULT_CONFIG`. -/
def getApiConfiguration (temp : Bool) (st : SecretsState) (g : SMap GVal) :
    ApiConfigurationView :=
  { deepSeekApiKey := getSecret temp st "deepSeekApiKey"
    model := getGlobalState g "model" (GVal.str DEFAULT_CONFIG.model)
    temperature := getGlobalState g "temperature" (GVal.num DEFAULT_CONFIG.temperature) }

/-- `updateApiConfiguration(context, apiConfiguration)`: the secret batch
always carries the `deepSeekApiKey` entry (its value may be `undefined`),
while `model` and `temperature` enter the global batch only when defined;
the two batches run under `Promise.all` over disjoint stores, modelled by
applying both. -/
def updateApiConfiguration (temp : Bool) (st : SecretsState) (g : SMap GVal)
    (cfg : ApiConfiguration) : SecretsState × SMap GVal :=
  let batchedSecretUpdates : List (String × Option String) :=
    [("deepSeekApiKey", cfg.deepSeekApiKey)]
  let batchedGlobalUpdates : List (String × Option GVal) :=
    (match cfg.model with
     | some m => [("model", some (GVal.str m))]
     | none => []) ++
    (match cfg.temperature with
     | some t => [("temperature", some (GVal.num t))]
     | none => [])
  (updateSecretsBatch temp st batchedSecretUpdates,
   updateGlobalStateBatch g batchedGlobalUpdates)

/-- `resetAllState(context)`: removes every key currently present in
`globalState` (iterating `globalState.keys()`), deletes both secret keys
via `storeSecret(·, undefined)`, and in temporary mode finally clears the
in-memory map. -/
def resetAllState (temp : Bool) (st : SecretsState) (g : SMap GVal) :
    SecretsState × SMap GVal :=
  let g' := (SMap.keys g).foldl (fun acc k => SMap.erase acc k) g
  let st' := storeSecret temp (storeSecret temp st "deepSeekApiKey" none) "authNonce" none
  let st'' := if temp then { st' with mem := [] } else st'
  (st'', g')

/-! ## Key validator and display masking (src `state.ts`) -/

/-- Outcome of the single outbound `fetch` to the "list models" endpoint:
either an HTTP response with some status code, or a thrown transport
error (network failure, timeout). -/
inductive NetOutcome where
  | response (status : Nat)
  | failure (msg : String)
deriving DecidableEq, Repr

/-- `String.prototype.trim()` over the character list. -/
def jsTrim (s : List Char) : List Char :=
  ((s.dropWhile Char.isWhitespace).reverse.dropWhile Char.isWhitespace).reverse

/-- The local blank test of `validateApiKey`:
`!apiKey || apiKey.trim().length === 0`. -/
def isBlank (apiKey : String) : Bool :=
  apiKey == "" || (jsTrim apiKey.data).length == 0

/-- `response.ok` of the fetch API: status in the range 200–299. -/
def responseOk (status : Nat) : Bool :=
  decide (200 ≤ status) && decide (status < 300)

/-- `validateApiKey(apiKey)`: blank candidates return `false` locally;
otherwise one `fetch` of the models endpoint with the candidate as bearer
credential, returning `response.ok`; the surrounding `try/catch` turns
any thrown transport error into `false`.  The `Except` result records
that the function itself never throws to its caller. -/
def validateApiKey (net : String → NetOutcome) (apiKey : String) :
    Except String Bool :=
  if isBlank apiKey then .ok false
  else
    match net apiKey with
    | .response status => .ok (responseOk status)
    | .failure _ => .ok false

/-- `maskApiKey(apiKey)` over the character list of the key:
empty input gives the empty string, length ≤ 8 gives only placeholder
characters, otherwise `substring(0,4)`, `len-8` placeholders, and
`substring(len-4)`. -/
def maskApiKey (apiKey : List Char) : List Char :=
  if apiKey = [] then []
  else if apiKey.length ≤ 8 then List.replicate apiKey.length '●'
  else
    apiKey.take 4 ++ List.replicate (apiKey.length - 8) '●' ++
      apiKey.drop (apiKey.length - 4)

/-! ## StorageService facade (src `storage-service.ts`) -/

/-- `StorageService.setApiKey(apiKey)`: validates the candidate first;
an invalid result throws `Invalid API Key`, which the surrounding
`try/catch` converts into `(false, unchanged state)`; a valid result
stores the key and returns `true`. -/
def StorageService.setApiKey (temp : Bool) (net : String → NetOutcome)
    (st : SecretsState) (apiKey : String) : Bool × SecretsState :=
  match validateApiKey net apiKey with
  | .ok true => (true, storeSecret temp st "deepSeekApiKey" (some apiKey))
  | _ => (false, st)

/-- `ClarifyViewProvider.saveConfig(apiKey, model?)` (webview save path):
builds a configuration carrying the key (and the model when supplied) and
hands it to `updateConfiguration` — with no validation step. -/
def saveConfig (temp : Bool) (st : SecretsState) (g : SMap GVal)
    (apiKey : String) (model : Option String) : SecretsState × SMap GVal :=
  updateApiConfiguration temp st g
    { deepSeekApiKey := some apiKey, model := model, temperature := none }

/-! ## Storage event manager (src `storage-service.ts`) -/

/-- Event kinds of `StorageEventType`. -/
inductive StorageEventType where
  | apiKeyChanged
  | configChanged
  | reset
deriving DecidableEq, Repr

/-- A `StorageEvent`: a kind plus an opaque payload. -/
structure StorageEvent where
  type : StorageEventType
  data : Option String := none

/-- Listener registry: the `Map<StorageEventType, Set<listener>>`.
Listeners are identified by `Nat` handles; a JS `Set` keeps insertion
order and ignores re-insertion, modelled by an order-preserving
duplicate-free list. -/
structure StorageEventManager where
  listeners : List (StorageEventType × List Nat)

/-- `this.listeners.get(type)`. -/
def getListenerSet (mgr : StorageEventManager) (t : StorageEventType) :
    Option (List Nat) :=
  (mgr.listeners.find? (fun p => p.1 == t)).map (·.2)

/-- Replace the listener set bound to `t`. -/
def setListenerSet (mgr : StorageEventManager) (t : StorageEventType)
    (s : List Nat) : StorageEventManager :=
  { listeners := mgr.listeners.map (fun p => if p.1 == t then (p.1, s) else p) }

/-- `addEventListener(type, listener)`: creates the set on first use,
then `Set.add` (append if not already present). -/
def addEventListener (mgr : StorageEventManager) (t : StorageEventType)
    (id : Nat) : StorageEventManager :=
  match getListenerSet mgr t with
  | none => { listeners := mgr.listeners ++ [(t, [id])] }
  | some s => setListenerSet mgr t (if id ∈ s then s else s ++ [id])

/-- `removeEventListener(type, listener)`: `Set.delete` when the set
exists, otherwise nothing. -/
def removeEventListener (mgr : StorageEventManager) (t : StorageEventType)
    (id : Nat) : StorageEventManager :=
  match getListenerSet mgr t with
  | none => mgr
  | some s => setListenerSet mgr t (s.filter (fun x => x ≠ id))

/-- One guarded listener call inside `dispatchEvent`: the `try/catch`
logs a thrown error and continues; the result is the logged error, if
any.  `env` gives each listener handle its behaviour on each event. -/
def runListener (env : Nat → StorageEvent → Except String Unit) (id : Nat)
    (ev : StorageEvent) : Option String :=
  match env id ev with
  | .ok _ => none
  | .error e => some e

/-- The `listeners.forEach` loop of `dispatchEvent`: every listener is
invoked in order, each inside its own `try/catch`. -/
def runAll (env : Nat → StorageEvent → Except String Unit)
    (ev : StorageEvent) : List Nat → List (Option String)
  | [] => []
  | id :: rest => runListener env id ev :: runAll env ev rest

/-- `dispatchEvent(event)`: looks up the set registered for the event's
kind; an absent set means nothing happens; otherwise every listener runs
in registration order under an individual `try/catch`.  The returned
list is the per-listener log (an entry per listener, `some` when that
listener threw); the function never propagates a listener error. -/
def dispatchEvent (env : Nat → StorageEvent → Except String Unit)
    (mgr : StorageEventManager) (ev : StorageEvent) : List (Option String) :=
  match getListenerSet mgr ev.type with
  | none => []
  | some ids => runAll env ev ids

/-! ## Shared helper lemmas -/

theorem getSecret_storeSecret_same (temp : Bool) (st : SecretsState)
    (key S : String) (h : S ≠ "") :
    getSecret temp (storeSecret temp st key (some S)) key = some S := by
  cases temp <;>
    simp [getSecret, storeSecret, applySecretUpdate, h, SMap.get_set_self]

theorem getSecret_storeSecret_empty (temp : Bool) (st : SecretsState)
    (key : String) :
    getSecret temp (storeSecret temp st key (some "")) key = none := by
  cases temp <;>
    simp [getSecret, storeSecret, applySecretUpdate, SMap.get_erase]

theorem mem_foldl_storeSecret_false
    (updates : List (String × Option String)) (st : SecretsState) :
    (updates.foldl (fun s p => storeSecret false s p.1 p.2) st).mem = st.mem := by
  induction updates generalizing st with
  | nil => rfl
  | cons p rest ih =>
    rw [List.foldl_cons, ih]
    rfl

theorem runAll_length (env : Nat → StorageEvent → Except String Unit)
    (ev : StorageEvent) (l : List Nat) :
    (runAll env ev l).length = l.length := by
  induction l with
  | nil => rfl
  | cons id rest ih => simp [runAll, ih]

theorem runAll_get? (env : Nat → StorageEvent → Except String Unit)
    (ev : StorageEvent) (l : List Nat) (i : Nat) :
    (runAll env ev l).get? i = (l.get? i).map (fun id => runListener env id ev) := by
  induction l generalizing i with
  | nil => simp [runAll]
  | cons id rest ih =>
    cases i with
    | zero => simp [runAll]
    | succ j => simpa [runAll] using ih j

theorem validateApiKey_ok (net : String → NetOutcome) (apiKey : String) :
    ∃ b : Bool, validateApiKey net apiKey = .ok b := by
  unfold validateApiKey
  by_cases h : isBlank apiKey
  · exact ⟨false, by simp [h]⟩
  · cases hnet : net apiKey with
    | response status => exact ⟨responseOk status, by simp [h, hnet]⟩
    | failure msg => exact ⟨false, by simp [h, hnet]⟩

theorem validateApiKey_true_not_blank (net : String → NetOutcome)
    (apiKey : String) (h : validateApiKey net apiKey = .ok true) :
    isBlank apiKey = false := by
  by_contra hb
  rw [Bool.not_eq_false] at hb
  simp [validateApiKey, hb] at h

/-! ## Claim theorems -/

/-- C3: `maskApiKey` preserves the length of the secret; a secret longer
than 8 characters is masked to its first 4 characters, `len - 8`
placeholder characters, and its last 4 characters; a secret of length at
most 8 is masked to placeholder characters only, of the same length; and
the empty secret masks to the empty string. -/
theorem c3_maskApiKey_shape (S : List Char) :
    (maskApiKey S).length = S.length ∧
    (8 < S.length → maskApiKey S =
      S.take 4 ++ List.replicate (S.length - 8) '●' ++ S.drop (S.length - 4)) ∧
    (S.length ≤ 8 → maskApiKey S = List.replicate S.length '●') ∧
    maskApiKey ([] : List Char) = [] := by
  refine ⟨?_, ?_, ?_, rfl⟩
  · by_cases h0 : S = []
    · simp [maskApiKey, h0]
    · by_cases h8 : S.length ≤ 8
      · simp [maskApiKey, h0, h8]
      · have h9 : 8 < S.length := by omega
        simp only [maskApiKey, h0, h8, if_false, if_neg, List.length_append,
          List.length_take, List.length_replicate, List.length_drop]
        omega
  · intro h
    have h0 : S ≠ [] := by
      intro he
      rw [he] at h
      simp at h
    have h8 : ¬ S.length ≤ 8 := by omega
    simp [maskApiKey, h0, h8]
  · intro h
    by_cases h0 : S = []
    · simp [maskApiKey, h0]
    · simp [maskApiKey, h0, h]

/-- C3 witness: the 19-character secret `sk-ABCDEFGHIJKLMNOP` is masked
to `sk-A`, 11 placeholders, `MNOP`, with the length preserved. -/
theorem c3_maskApiKey_shape_witness :
    8 < "sk-ABCDEFGHIJKLMNOP".data.length ∧
    maskApiKey "sk-ABCDEFGHIJKLMNOP".data =
      "sk-ABCDEFGHIJKLMNOP".data.take 4 ++
        List.replicate ("sk-ABCDEFGHIJKLMNOP".data.length - 8) '●' ++
        "sk-ABCDEFGHIJKLMNOP".data.drop ("sk-ABCDEFGHIJKLMNOP".data.length - 4) :=
  ⟨by decide, (c3_maskApiKey_shape "sk-ABCDEFGHIJKLMNOP".data).2.1 (by decide)⟩

/-- C7: storing a non-empty secret under a key and immediately reading
that key returns the same secret, in both the ephemeral (`temp = true`)
and the persistent (`temp = false`) storage mode. -/
theorem c7_secret_roundtrip (temp : Bool) (st : SecretsState)
    (key S : String) (h : S ≠ "") :
    getSecret temp (storeSecret temp st key (some S)) key = some S :=
  getSecret_storeSecret_same temp st key S h

/-- C7 witness: a concrete round-trip in each mode. -/
theorem c7_secret_roundtrip_witness :
    ("sk-1" : String) ≠ "" ∧
    getSecret true (storeSecret true ⟨[], []⟩ "deepSeekApiKey" (some "sk-1"))
      "deepSeekApiKey" = some "sk-1" ∧
    getSecret false (storeSecret false ⟨[], []⟩ "deepSeekApiKey" (some "sk-1"))
      "deepSeekApiKey" = some "sk-1" :=
  ⟨by decide,
   c7_secret_roundtrip true ⟨[], []⟩ "deepSeekApiKey" "sk-1" (by decide),
   c7_secret_roundtrip false ⟨[], []⟩ "deepSeekApiKey" "sk-1" (by decide)⟩

/-- C8: storage-mode invariant.  In ephemeral mode (`temp = true`) no
secret operation touches the vault: `storeSecret`, `updateSecretsBatch`
and `resetAllState` leave the vault component unchanged, and `getSecret`
is a function of the in-memory map alone.  In persistent mode
(`temp = false`) the in-memory map is never read or written: the three
mutating operations leave it unchanged, and `getSecret` is a function of
the vault alone. -/
theorem c8_storage_mode_invariant (st : SecretsState) (g : SMap GVal)
    (key : String) (value : Option String)
    (updates : List (String × Option String)) :
    (storeSecret true st key value).vault = st.vault ∧
    getSecret true st key = SMap.get st.mem key ∧
    (updateSecretsBatch true st updates).vault = st.vault ∧
    ((resetAllState true st g).1).vault = st.vault ∧
    (storeSecret false st key value).mem = st.mem ∧
    getSecret false st key = SMap.get st.vault key ∧
    (updateSecretsBatch false st updates).mem = st.mem ∧
    ((resetAllState false st g).1).mem = st.mem := by
  refine ⟨rfl, rfl, rfl, rfl, rfl, rfl, ?_, rfl⟩
  simpa [updateSecretsBatch] using mem_foldl_storeSecret_false updates st

/-- C10 (implicit): storing the empty string under a secret key is
treated as deletion — `storeSecret key (some "")` takes the falsy branch
of `if (value)`, so a subsequent `getSecret key` returns `none`, not the
empty string, in either storage mode. -/
theorem c10_store_empty_is_delete (temp : Bool) (st : SecretsState)
    (key : String) :
    getSecret temp (storeSecret temp st key (some "")) key = none :=
  getSecret_storeSecret_empty temp st key

/-- C6: `resetAllState` deletes both known secret keys (`deepSeekApiKey`
and `authNonce`), removes every preference key currently present in the
global state (whatever set of keys that is), and a subsequent
`getApiConfiguration` returns the default preferences (model
`deepseek-chat`, temperature `0.2`) and an absent secret — in either
storage mode. -/
theorem c6_resetAll_defaults (temp : Bool) (st : SecretsState) (g : SMap GVal) :
    getSecret temp (resetAllState temp st g).1 "deepSeekApiKey" = none ∧
    getSecret temp (resetAllState temp st g).1 "authNonce" = none ∧
    (∀ k, SMap.get (resetAllState temp st g).2 k = none) ∧
    getApiConfiguration temp (resetAllState temp st g).1 (resetAllState temp st g).2 =
      { deepSeekApiKey := none, model := GVal.str "deepseek-chat",
        temperature := GVal.num (1/5) } := by
  have hg : ∀ k, SMap.get (resetAllState temp st g).2 k = none := by
    intro k
    simp only [resetAllState]
    rw [SMap.get_foldl_erase]
    by_cases hk : k ∈ SMap.keys g
    · simp [hk]
    · simp [hk, SMap.get_none_of_not_mem_keys g k hk]
  have hsec : ∀ key, key = "deepSeekApiKey" ∨ key = "authNonce" →
      getSecret temp (resetAllState temp st g).1 key = none := by
    intro key hkey
    cases temp with
    | true => simp [resetAllState, getSecret, SMap.get]
    | false =>
      rcases hkey with h | h <;>
        simp [resetAllState, getSecret, storeSecret, applySecretUpdate, h,
          SMap.get_erase]
  refine ⟨hsec _ (Or.inl rfl), hsec _ (Or.inr rfl), hg, ?_⟩
  simp [getApiConfiguration, getGlobalState, hg "model", hg "temperature",
    hsec _ (Or.inl rfl), DEFAULT_CONFIG]

/-- C1 counterexample: starting from a state holding the secret `sk-old`
and temperature `0.7`, `updateConfiguration({model: "deepseek-reasoner"})`
updates the model and leaves the temperature untouched, but deletes the
stored secret — `getConfiguration()` afterwards reports the secret
absent, not unchanged, refuting the claim as stated. -/
theorem c1_counterexample :
    (getApiConfiguration false
        { vault := [("deepSeekApiKey", "sk-old")], mem := [] }
        [("temperature", GVal.num (7/10))]).deepSeekApiKey = some "sk-old" ∧
    getApiConfiguration false
        (updateApiConfiguration false
          { vault := [("deepSeekApiKey", "sk-old")], mem := [] }
          [("temperature", GVal.num (7/10))]
          { deepSeekApiKey := none, model := some "deepseek-reasoner",
            temperature := none }).1
        (updateApiConfiguration false
          { vault := [("deepSeekApiKey", "sk-old")], mem := [] }
          [("temperature", GVal.num (7/10))]
          { deepSeekApiKey := none, model := some "deepseek-reasoner",
            temperature := none }).2 =
      { deepSeekApiKey := none, model := GVal.str "deepseek-reasoner",
        temperature := GVal.num (7/10) } := by
  constructor
  · rfl
  · rfl

/-- C1 amended: after `updateConfiguration` with only the model supplied,
`getConfiguration` reports the model updated and the temperature
unchanged, but the secret is deleted (an unsupplied secret field is
forwarded as `undefined` to the secret batch, which `storeSecret` treats
as deletion) — in either storage mode. -/
theorem c1_model_only_update (temp : Bool) (st : SecretsState) (g : SMap GVal)
    (m : String) :
    (getApiConfiguration temp
        (updateApiConfiguration temp st g
          { deepSeekApiKey := none, model := some m, temperature := none }).1
        (updateApiConfiguration temp st g
          { deepSeekApiKey := none, model := some m, temperature := none }).2).model
      = GVal.str m ∧
    (getApiConfiguration temp
        (updateApiConfiguration temp st g
          { deepSeekApiKey := none, model := some m, temperature := none }).1
        (updateApiConfiguration temp st g
          { deepSeekApiKey := none, model := some m, temperature := none }).2).temperature
      = (getApiConfiguration temp st g).temperature ∧
    (getApiConfiguration temp
        (updateApiConfiguration temp st g
          { deepSeekApiKey := none, model := some m, temperature := none }).1
        (updateApiConfiguration temp st g
          { deepSeekApiKey := none, model := some m, temperature := none }).2).deepSeekApiKey
      = none := by
  refine ⟨?_, ?_, ?_⟩
  · simp [getApiConfiguration, getGlobalState, updateApiConfiguration,
      updateGlobalStateBatch, storeGlobalState, SMap.get_set_self]
  · simp [getApiConfiguration, getGlobalState, updateApiConfiguration,
      updateGlobalStateBatch, storeGlobalState]
    rw [SMap.get_set_ne]
    decide
  · cases temp <;>
      simp [getApiConfiguration, getSecret, updateApiConfiguration,
        updateSecretsBatch, storeSecret, applySecretUpdate, SMap.get_erase]

/-- C2 counterexample: with an upstream that rejects every candidate
(every request answered 401, so the validator returns `false` for every
key it is given), the webview save path `saveConfig` →
`updateConfiguration` still persists the candidate as the current
secret: the configuration subsystem persists a secret the validator
never accepted, refuting the claim. -/
theorem c2_counterexample :
    getSecret false
      (saveConfig false { vault := [], mem := [] } [] "sk-unvalidated" none).1
      "deepSeekApiKey" = some "sk-unvalidated" ∧
    validateApiKey (fun _ => NetOutcome.response 401) "sk-unvalidated" =
      .ok false :=
  ⟨rfl, rfl⟩

/-- C2 amended: only `StorageService.setApiKey` guards persistence with
validation — it leaves the stores unchanged (returning `false`) when the
validator answers `false`, and persists the candidate exactly when the
validator answers `true`; but `updateConfiguration` (the path taken by
the webview's `saveConfig`) persists a supplied candidate without any
validation call. -/
theorem c2_setApiKey_validates (temp : Bool) (net : String → NetOutcome)
    (st : SecretsState) (g : SMap GVal) (apiKey : String) :
    (validateApiKey net apiKey = .ok false →
      StorageService.setApiKey temp net st apiKey = (false, st)) ∧
    (validateApiKey net apiKey = .ok true →
      (StorageService.setApiKey temp net st apiKey).1 = true ∧
      getSecret temp (StorageService.setApiKey temp net st apiKey).2
        "deepSeekApiKey" = some apiKey) ∧
    (apiKey ≠ "" →
      getSecret temp (saveConfig temp st g apiKey none).1 "deepSeekApiKey" =
        some apiKey) := by
  refine ⟨?_, ?_, ?_⟩
  · intro h
    simp [StorageService.setApiKey, h]
  · intro h
    have hb : isBlank apiKey = false := validateApiKey_true_not_blank net apiKey h
    have hne : apiKey ≠ "" := by
      intro he
      rw [he] at hb
      simp [isBlank] at hb
    refine ⟨by simp [StorageService.setApiKey, h], ?_⟩
    simp only [StorageService.setApiKey, h]
    exact getSecret_storeSecret_same temp st "deepSeekApiKey" apiKey hne
  · intro hne
    cases temp <;>
      simp [saveConfig, updateApiConfiguration, updateSecretsBatch, getSecret,
        storeSecret, applySecretUpdate, hne, SMap.get_set_self]

/-- C2 amended witness: with an upstream answering 200, `setApiKey`
accepts and persists `sk-good`; the `saveConfig` path persists
`sk-unchecked` with no validation. -/
theorem c2_setApiKey_validates_witness :
    validateApiKey (fun _ => NetOutcome.response 200) "sk-good" = .ok true ∧
    (StorageService.setApiKey false (fun _ => NetOutcome.response 200)
      { vault := [], mem := [] } "sk-good").1 = true ∧
    getSecret false (StorageService.setApiKey false
      (fun _ => NetOutcome.response 200) { vault := [], mem := [] }
      "sk-good").2 "deepSeekApiKey" = some "sk-good" :=
  ⟨rfl,
   ((c2_setApiKey_validates false (fun _ => NetOutcome.response 200)
      { vault := [], mem := [] } [] "sk-good").2.1 rfl).1,
   ((c2_setApiKey_validates false (fun _ => NetOutcome.response 200)
      { vault := [], mem := [] } [] "sk-good").2.1 rfl).2⟩

/-- C4 counterexample: for the empty candidate the validator returns the
boolean `false` — it does not report an error — refuting the claim that
a blank candidate is the one input that errors rather than returning a
boolean. -/
theorem c4_counterexample :
    validateApiKey (fun _ => NetOutcome.response 200) "" = .ok false :=
  rfl

/-- C4 amended: an empty or blank candidate makes the validator return
the boolean `false`, rejected locally without a network call (the result
does not depend on the network behaviour); and the validator never
reports an error for any input. -/
theorem c4_blank_returns_false (net net' : String → NetOutcome)
    (apiKey : String) :
    (isBlank apiKey = true →
      validateApiKey net apiKey = .ok false ∧
      validateApiKey net apiKey = validateApiKey net' apiKey) ∧
    (∃ b : Bool, validateApiKey net apiKey = .ok b) := by
  refine ⟨?_, validateApiKey_ok net apiKey⟩
  intro h
  simp [validateApiKey, h]

/-- C4 amended witness: the whitespace-only candidate is blank and the
validator returns `false` for it, under any network behaviour. -/
theorem c4_blank_returns_false_witness :
    isBlank "  " = true ∧
    validateApiKey (fun _ => NetOutcome.response 200) "  " = .ok false ∧
    validateApiKey (fun _ => NetOutcome.response 200) "  " =
      validateApiKey (fun _ => NetOutcome.failure "net down") "  " :=
  ⟨by decide,
   ((c4_blank_returns_false (fun _ => NetOutcome.response 200)
      (fun _ => NetOutcome.failure "net down") "  ").1 (by decide)).1,
   ((c4_blank_returns_false (fun _ => NetOutcome.response 200)
      (fun _ => NetOutcome.failure "net down") "  ").1 (by decide)).2⟩

/-- C5: the validator never throws to its caller (its result is always a
boolean); for a non-blank candidate, an HTTP response from the endpoint
yields exactly `response.ok` (true for 2xx, false for 401 and every
other status) and a thrown transport failure degrades to `false`; and
whenever the validator answers `true`, the candidate was non-blank and
the endpoint answered with a 2xx status. -/
theorem c5_validator_http (net : String → NetOutcome) (apiKey : String) :
    (∃ b : Bool, validateApiKey net apiKey = .ok b) ∧
    (isBlank apiKey = false →
      (∀ status, net apiKey = .response status →
        validateApiKey net apiKey = .ok (responseOk status)) ∧
      (∀ msg, net apiKey = .failure msg →
        validateApiKey net apiKey = .ok false)) ∧
    (validateApiKey net apiKey = .ok true →
      isBlank apiKey = false ∧
      ∃ status, net apiKey = .response status ∧ responseOk status = true) := by
  refine ⟨validateApiKey_ok net apiKey, ?_, ?_⟩
  · intro hb
    constructor
    · intro status hnet
      simp [validateApiKey, hb, hnet]
    · intro msg hnet
      simp [validateApiKey, hb, hnet]
  · intro h
    have hb : isBlank apiKey = false := validateApiKey_true_not_blank net apiKey h
    refine ⟨hb, ?_⟩
    cases hnet : net apiKey with
    | response status =>
      refine ⟨status, rfl, ?_⟩
      simp [validateApiKey, hb, hnet] at h
      exact h
    | failure msg => simp [validateApiKey, hb, hnet] at h

/-- C5 witness: for the non-blank candidate `sk-x`, a 200 answer gives
`true`, a 401 answer gives `false`, and a thrown network failure gives
`false`. -/
theorem c5_validator_http_witness :
    isBlank "sk-x" = false ∧
    validateApiKey (fun _ => NetOutcome.response 200) "sk-x" =
      .ok (responseOk 200) ∧
    validateApiKey (fun _ => NetOutcome.response 401) "sk-x" =
      .ok (responseOk 401) ∧
    validateApiKey (fun _ => NetOutcome.failure "timeout") "sk-x" = .ok false :=
  ⟨by decide,
   ((c5_validator_http (fun _ => NetOutcome.response 200) "sk-x").2.1
      (by decide)).1 200 rfl,
   ((c5_validator_http (fun _ => NetOutcome.response 401) "sk-x").2.1
      (by decide)).1 401 rfl,
   ((c5_validator_http (fun _ => NetOutcome.failure "timeout") "sk-x").2.1
      (by decide)).2 "timeout" rfl⟩

/-- C9: a dispatch with no listener set registered for the event's kind
does nothing (empty log, no error); when a set is registered, every one
of its listeners receives the event, in registration order — the log has
one entry per registered listener, and the `i`-th entry is exactly the
guarded outcome of the `i`-th registered listener, whether or not any
earlier listener threw; a thrown listener error is caught and logged,
never propagated. -/
theorem c9_dispatch_delivers (env : Nat → StorageEvent → Except String Unit)
    (mgr : StorageEventManager) (ev : StorageEvent) :
    (getListenerSet mgr ev.type = none → dispatchEvent env mgr ev = []) ∧
    (∀ ids, getListenerSet mgr ev.type = some ids →
      (dispatchEvent env mgr ev).length = ids.length ∧
      ∀ i, (dispatchEvent env mgr ev).get? i =
        (ids.get? i).map (fun id => runListener env id ev)) := by
  constructor
  · intro h
    simp [dispatchEvent, h]
  · intro ids h
    constructor
    · simp [dispatchEvent, h, runAll_length]
    · intro i
      have hd : dispatchEvent env mgr ev = runAll env ev ids := by
        simp [dispatchEvent, h]
      rw [hd, runAll_get?]

/-- C9 witness: with listener 0 throwing and listener 1 succeeding,
dispatching to the kind they are registered for produces a two-entry
log whose second entry shows listener 1 was still invoked; dispatching a
kind with no registered listeners is a no-op. -/
theorem c9_dispatch_delivers_witness :
    dispatchEvent
      (fun id _ => if id = 0 then .error "boom" else .ok ())
      ⟨[(StorageEventType.apiKeyChanged, [0, 1])]⟩
      ⟨StorageEventType.configChanged, none⟩ = [] ∧
    (dispatchEvent
      (fun id _ => if id = 0 then .error "boom" else .ok ())
      ⟨[(StorageEventType.apiKeyChanged, [0, 1])]⟩
      ⟨StorageEventType.apiKeyChanged, none⟩).length = 2 ∧
    (dispatchEvent
      (fun id _ => if id = 0 then .error "boom" else .ok ())
      ⟨[(StorageEventType.apiKeyChanged, [0, 1])]⟩
      ⟨StorageEventType.apiKeyChanged, none⟩).get? 1 =
      some (runListener (fun id _ => if id = 0 then .error "boom" else .ok ())
        1 ⟨StorageEventType.apiKeyChanged, none⟩) :=
  ⟨(c9_dispatch_delivers
      (fun id _ => if id = 0 then .error "boom" else .ok ())
      ⟨[(StorageEventType.apiKeyChanged, [0, 1])]⟩
      ⟨StorageEventType.configChanged, none⟩).1 rfl,
   ((c9_dispatch_delivers
      (fun id _ => if id = 0 then .error "boom" else .ok ())
      ⟨[(StorageEventType.apiKeyChanged, [0, 1])]⟩
      ⟨StorageEventType.apiKeyChanged, none⟩).2 [0, 1] rfl).1,
   (((c9_dispatch_delivers
      (fun id _ => if id = 0 then .error "boom" else .ok ())
      ⟨[(StorageEventType.apiKeyChanged, [0, 1])]⟩
      ⟨StorageEventType.apiKeyChanged, none⟩).2 [0, 1] rfl).2 1).trans rfl⟩
